import Mathlib

/-!
Verification development for the spin-box progression repository.

The repository is a progressive tutorial: a numeric spin-box custom element
built first by hand (example 1), then with a shadow-template mixin
(example 3), then with a reactive state mixin (example 4), and finally a
themed variant (example 12).  This file gives a shallow embedding of the
four spin-box variants and of the reactive-state protocol, and proves the
spec's testable properties about them.

Values flowing through a spin box are JavaScript values: numbers (an
integer or NaN in this tutorial) or raw strings (the text of the input
field).  The host environment's conversions (ToString, ToNumber, parseInt)
are modelled below for the integer fragment actually exercised by the
widgets.
-/

set_option linter.unusedSectionVars false

namespace SpinSpec

/-- Numeric values of the widget: an integer or NaN (the tutorial never
produces a non-integer finite number on the paths modelled here). -/
inductive JSNum where
  | int (n : Int)
  | nan
deriving DecidableEq

/-- Values a spin-box state field can hold: a number, or a raw string
(the input listener stores the field text without coercion). -/
inductive JSVal where
  | num (k : JSNum)
  | str (s : String)
deriving DecidableEq

/-- Decrement by one; NaN is absorbing, as in JS arithmetic. -/
def JSNum.sub1 : JSNum → JSNum
  | int n => int (n - 1)
  | nan => nan

/-- Increment by one; NaN is absorbing, as in JS arithmetic. -/
def JSNum.add1 : JSNum → JSNum
  | int n => int (n + 1)
  | nan => nan

/-- Decimal digit character for a digit value 0..9. -/
def digitChar : Nat → Char
  | 0 => '0'
  | 1 => '1'
  | 2 => '2'
  | 3 => '3'
  | 4 => '4'
  | 5 => '5'
  | 6 => '6'
  | 7 => '7'
  | 8 => '8'
  | _ => '9'

/-- Numeric value of a decimal digit character (0 on non-digits, which the
parser never feeds it). -/
def digitVal (c : Char) : Nat :=
  if c = '1' then 1 else if c = '2' then 2 else if c = '3' then 3
  else if c = '4' then 4 else if c = '5' then 5 else if c = '6' then 6
  else if c = '7' then 7 else if c = '8' then 8 else if c = '9' then 9
  else 0

/-- Whether a character is a decimal digit. -/
def isDigitCh (c : Char) : Bool :=
  decide (48 ≤ c.toNat) && decide (c.toNat ≤ 57)

/-- Whether a character is whitespace skipped by parseInt. -/
def isSpaceCh (c : Char) : Bool :=
  decide (c = ' ') || decide (c = '\t') || decide (c = '\n') || decide (c = '\r')

/-- Decimal digits of a positive number, most significant first; fuel-based
so that it reduces definitionally (fuel at least the number suffices). -/
def natDigitsAux : Nat → Nat → List Char
  | 0, _ => []
  | fuel + 1, n =>
    if n = 0 then [] else natDigitsAux fuel (n / 10) ++ [digitChar (n % 10)]

/-- Decimal digit string of a natural number. -/
def natToChars (n : Nat) : List Char :=
  if n = 0 then ['0'] else natDigitsAux (n + 1) n

/-- Numeric value of a list of decimal digit characters. -/
def charsToNat (cs : List Char) : Nat :=
  cs.foldl (fun a c => a * 10 + digitVal c) 0

/-- Decimal string of an integer, as JS ToString renders an integral
number: a minus sign for negatives, then the decimal digits. -/
def jsIntToString (n : Int) : String :=
  if n < 0 then String.mk ('-' :: natToChars n.natAbs)
  else String.mk (natToChars n.natAbs)

/-- String conversion of a widget number: decimal digits, or the literal
text "NaN". -/
def JSNum.toStr : JSNum → String
  | int n => jsIntToString n
  | nan => "NaN"

/-- String conversion of a widget value (assigning it to input.value
applies JS ToString; strings pass through unchanged). -/
def JSVal.toStr : JSVal → String
  | num k => k.toStr
  | str s => s

/-- Longest decimal-digit prefix parsed as a number; empty prefix gives
NaN, exactly as parseInt does once whitespace and sign are consumed. -/
def parseDigits (cs : List Char) : JSNum :=
  let ds := cs.takeWhile isDigitCh
  if ds.isEmpty then JSNum.nan else JSNum.int (charsToNat ds)

/-- Radix-10 parseInt on a whitespace-trimmed character list: optional
sign, then the longest digit prefix; no digits yields NaN. -/
def parseIntTrimmed (cs : List Char) : JSNum :=
  match cs with
  | [] => JSNum.nan
  | c :: rest =>
    if c = '-' then
      match parseDigits rest with
      | JSNum.int m => JSNum.int (-(m : Int))
      | JSNum.nan => JSNum.nan
    else if c = '+' then parseDigits rest
    else parseDigits (c :: rest)

/-- Radix-10 parseInt on a character list: skip leading whitespace, then
parse an optionally signed digit prefix. -/
def parseIntChars (cs : List Char) : JSNum :=
  parseIntTrimmed (cs.dropWhile isSpaceCh)

/-- Model of the host environment's parseInt (radix 10,
leading-whitespace/sign tolerant), as used by attributeChangedCallback. -/
def parseIntJS (s : String) : JSNum :=
  parseIntChars s.data

/-- Model of JS ToNumber restricted to the integer fragment: numbers pass
through; a string must be (after trimming) empty (0) or an optionally
signed run of digits, otherwise NaN.  This is the coercion applied by the
decrement/increment expressions when they read the value property. -/
def toNumberChars (cs : List Char) : JSNum :=
  let t := ((cs.dropWhile isSpaceCh).reverse.dropWhile isSpaceCh).reverse
  match t with
  | [] => JSNum.int 0
  | c :: rest =>
    if c = '-' then
      if rest.isEmpty || !rest.all isDigitCh then JSNum.nan
      else JSNum.int (-(charsToNat rest : Int))
    else if c = '+' then
      if rest.isEmpty || !rest.all isDigitCh then JSNum.nan
      else JSNum.int (charsToNat rest)
    else if (c :: rest).all isDigitCh then JSNum.int (charsToNat (c :: rest))
    else JSNum.nan

/-- ToNumber coercion of a widget value. -/
def JSVal.toNumber : JSVal → JSNum
  | num k => k
  | str s => toNumberChars s.data

/-!
The reactive-state protocol.

The repository ships only the symbol table of the mixin library
(internal.js); the sources of ReactiveMixin.js and ShadowTemplateMixin.js
are not included.  The definitions in this section are therefore modelled
from the spec's ReactiveState contract (section 4.2): a component instance
owns a current snapshot (a total map from fields to values), an
accumulated change set, a render-scheduled flag and a first-render flag;
update merges a partial map over the snapshot, schedules nothing when the
merge is field-wise equal to the snapshot, and otherwise records the
changed fields and schedules a render pass if one is not already pending;
at the end of a synchronous turn the single pending pass runs, observing
the final snapshot, the accumulated change set and the first-render flag.
-/

/-- Data observed by one render pass: the snapshot, the change set, and
the first-render flag. -/
structure Pass (F V : Type) where
  snapshot : F → V
  changed : F → Bool
  first : Bool

/-- Per-instance reactive state: current snapshot, accumulated change set,
render-scheduled flag, whether the first render has completed, the
component's rendered surface (of type D), and a log of the completed
render passes, most recent first. -/
structure RState (F V D : Type) where
  current : F → V
  acc : F → Bool
  scheduled : Bool
  firstDone : Bool
  dom : D
  passes : List (Pass F V)

variable {F V D : Type} [Fintype F] [DecidableEq V]

/-- Shallow merge of a partial update over a snapshot: updated fields take
the new value, the rest keep the current one. -/
def mergeSnap (cur : F → V) (delta : F → Option V) : F → V :=
  fun f => (delta f).getD (cur f)

/-- Modelled from the spec: the ReactiveMixin setState operation (the
mixin source is not in the repository).  Merge the partial update; if the
result is field-wise equal to the current snapshot do nothing, otherwise
install it, accumulate the changed fields, and schedule a render pass if
one is not already pending. -/
def setState (delta : F → Option V) (s : RState F V D) : RState F V D :=
  if ∀ f, mergeSnap s.current delta f = s.current f then s
  else
    { s with
      current := mergeSnap s.current delta,
      acc := fun f => s.acc f || decide (¬ mergeSnap s.current delta f = s.current f),
      scheduled := true }

/-- Modelled from the spec: the single render pass that runs at the end of
a synchronous turn when one is scheduled.  It observes the final merged
snapshot, the accumulated change set and the first-render flag, applies
the component's render callback to the rendered surface, then resets the
change set and the scheduled flag. -/
def endTurn (rc : D → Pass F V → D) (s : RState F V D) : RState F V D :=
  if s.scheduled then
    { s with
      acc := fun _ => false,
      scheduled := false,
      firstDone := true,
      dom := rc s.dom ⟨s.current, s.acc, !s.firstDone⟩,
      passes := ⟨s.current, s.acc, !s.firstDone⟩ :: s.passes }
  else s

/-- One synchronous turn of execution: a burst of updates issued before
yielding, followed by the coalesced render pass (if any was scheduled). -/
def processTurn (rc : D → Pass F V → D) (us : List (F → Option V))
    (s : RState F V D) : RState F V D :=
  endTurn rc (us.foldl (fun t d => setState d t) s)

/-- A freshly constructed, never attached instance with the
component-defined default snapshot. -/
def freshR (dflt : F → V) (d0 : D) : RState F V D :=
  ⟨dflt, fun _ => false, false, false, d0, []⟩

/-- Modelled from the spec: attaching the instance triggers a render pass;
on the first render every field counts as changed. -/
def activate (rc : D → Pass F V → D) (s : RState F V D) : RState F V D :=
  endTurn rc { s with scheduled := true, acc := fun _ => true }

/-- Snapshot after folding a turn's updates over a starting snapshot. -/
def finalSnap (cur : F → V) : List (F → Option V) → F → V
  | [] => cur
  | d :: rest => finalSnap (mergeSnap cur d) rest

/-- Union, over the turn's updates, of the fields each merge changed
relative to the snapshot it was applied to. -/
def unionChanged (cur : F → V) : List (F → Option V) → F → Bool
  | [] => fun _ => false
  | d :: rest => fun f =>
      decide (¬ mergeSnap cur d f = cur f) || unionChanged (mergeSnap cur d) rest f

/-- A sequence of synchronous turns, run one after the other. -/
def runTurns (rc : D → Pass F V → D) (s : RState F V D) :
    List (List (F → Option V)) → RState F V D
  | [] => s
  | us :: rest => runTurns rc (processTurn rc us s) rest

/-- Invariant of an activated instance: the first render has completed,
and the pass log is a (possibly empty) run of non-first passes on top of
exactly one first pass. -/
def flagInv (s : RState F V D) : Prop :=
  s.firstDone = true ∧
    ∃ L p, s.passes = L ++ [p] ∧ p.first = true ∧ ∀ q ∈ L, q.first = false

/-!
Example 4: the reactive spin box (src/04/index.html).

Its default state has a single field, value (default 0).  The render
callback wires the three event listeners on the first render, and writes
the value into the input field whenever the change set marks value.  The
shadow-root creation performed by super's render is modelled from the
spec: the root is created once, on the first pass.
-/

/-- The single state field of the spin box. -/
inductive SpinField where
  | value
deriving DecidableEq

instance : Fintype SpinField :=
  ⟨{SpinField.value}, fun x => by cases x; exact Finset.mem_singleton_self _⟩

/-- Rendered surface of the example-4 spin box: whether the shadow root
exists, the text shown in the input field, and instrumentation counters
for attached listeners and writes into the input field. -/
structure Dom4 where
  hasRoot : Bool
  inputText : String
  listeners : Nat
  inputWrites : Nat
deriving DecidableEq

/-- Render callback of the example-4 spin box.  Super's render (the
shadow-template layer, modelled from the spec) creates the root once; on
the first render the three listeners are attached; when the change set
marks value, the value is written into the input field. -/
def render4 (d : Dom4) (p : Pass SpinField JSVal) : Dom4 :=
  let d1 := if d.hasRoot then d else { d with hasRoot := true }
  let d2 := if p.first then { d1 with listeners := d1.listeners + 3 } else d1
  if p.changed SpinField.value then
    { d2 with
      inputText := (p.snapshot SpinField.value).toStr,
      inputWrites := d2.inputWrites + 1 }
  else d2

/-- Reactive-state instance of the example-4 spin box. -/
abbrev SpinBox4 := RState SpinField JSVal Dom4

/-- A freshly constructed example-4 spin box: default state value 0, no
shadow root, empty input field. -/
def fresh4 : SpinBox4 :=
  freshR (fun _ => JSVal.num (JSNum.int 0)) ⟨false, "", 0, 0⟩

/-- Attachment of the example-4 spin box: connectedCallback triggers the
first render pass. -/
def attach4 (s : SpinBox4) : SpinBox4 :=
  activate render4 s

/-- Reading the public value property: returns the current snapshot's
value field. -/
def getValue4 (s : SpinBox4) : JSVal :=
  s.current SpinField.value

/-- Writing the public value property: issues a state update carrying the
new value, processed in its own synchronous turn. -/
def setValueProp (v : JSVal) (s : SpinBox4) : SpinBox4 :=
  processTurn render4 [fun _ => some v] s

/-- attributeChangedCallback of the example-4 spin box: for the value
attribute, parse the text as an integer and assign the value property. -/
def attrChanged4 (name txt : String) (s : SpinBox4) : SpinBox4 :=
  if name = "value" then setValueProp (JSVal.num (parseIntJS txt)) s else s

/-- The input listener of the example-4 spin box: the user edits the field
text, and the listener assigns the raw field text to the value property
(no coercion appears in the source). -/
def inputEvent4 (txt : String) (s : SpinBox4) : SpinBox4 :=
  setValueProp (JSVal.str txt) { s with dom := { s.dom with inputText := txt } }

/-- The decrement-button listener of the example-4 spin box: the
expression value-- reads the property, coerces with ToNumber, subtracts
one and assigns the result back. -/
def pressDown4 (s : SpinBox4) : SpinBox4 :=
  setValueProp (JSVal.num (getValue4 s).toNumber.sub1) s

/-- The increment-button listener of the example-4 spin box. -/
def pressUp4 (s : SpinBox4) : SpinBox4 :=
  setValueProp (JSVal.num (getValue4 s).toNumber.add1) s

/-- Whether a widget value is a number (an integer or NaN) rather than a
raw string. -/
def isIntOrNaN : JSVal → Bool
  | JSVal.num _ => true
  | JSVal.str _ => false

/-!
Example 1: the hand-rolled spin box (src/unnamed/part_000).

The element keeps the value in a plain field; connectedCallback clones the
template into a new shadow root and wires the listeners only when no root
exists yet, and always re-renders the value; the value setter stores the
value and immediately writes it into the input field, dereferencing the
shadow root with no guard.
-/

/-- State of the example-1 spin box.  The root field is none before the
first connectedCallback; once created it carries the input field's text.
The counters instrument template clones, listener attachments and writes
into the input field. -/
structure SpinBox1 where
  val : JSVal
  root : Option String
  listeners : Nat
  clones : Nat
  inputWrites : Nat
deriving DecidableEq

/-- A freshly constructed example-1 spin box: the constructor sets the
value field to 0 and no shadow root exists. -/
def SpinBox1.init : SpinBox1 :=
  ⟨JSVal.num (JSNum.int 0), none, 0, 0, 0⟩

/-- connectedCallback of the example-1 spin box: if no shadow root exists,
create it, clone the template and wire the three listeners; then render
the current value into the input field. -/
def SpinBox1.connected (b : SpinBox1) : SpinBox1 :=
  let b1 :=
    match b.root with
    | none =>
      { b with root := some "", clones := b.clones + 1, listeners := b.listeners + 3 }
    | some _ => b
  { b1 with root := some b1.val.toStr, inputWrites := b1.inputWrites + 1 }

/-- The value setter of the example-1 spin box: store the value, then
write it into the input field through this.shadowRoot with no null guard.
The boolean records whether the write threw (a TypeError on a null
shadow root); the returned state reflects the mutations completed before
the throw. -/
def SpinBox1.setValue (b : SpinBox1) (v : JSVal) : SpinBox1 × Bool :=
  let b1 := { b with val := v }
  match b1.root with
  | none => (b1, true)
  | some _ => ({ b1 with root := some v.toStr, inputWrites := b1.inputWrites + 1 }, false)

/-- attributeChangedCallback of the example-1 spin box: for the value
attribute, parse the text as an integer and assign the value property. -/
def SpinBox1.attrChanged (b : SpinBox1) (name txt : String) : SpinBox1 × Bool :=
  if name = "value" then b.setValue (JSVal.num (parseIntJS txt)) else (b, false)

/-- The decrement-button listener of the example-1 spin box. -/
def SpinBox1.pressDown (b : SpinBox1) : SpinBox1 × Bool :=
  b.setValue (JSVal.num b.val.toNumber.sub1)

/-- The increment-button listener of the example-1 spin box. -/
def SpinBox1.pressUp (b : SpinBox1) : SpinBox1 × Bool :=
  b.setValue (JSVal.num b.val.toNumber.add1)

/-!
Example 3: the template-mixin spin box (src/03/index.html).

The component calls its own render method from connectedCallback and from
the value setter.  The method notes whether a shadow root existed before
calling super's render (ShadowTemplateMixin, modelled from the spec: it
creates and populates the root only when none exists), wires the three
listeners on the first render only, and always writes the value into the
input field.
-/

/-- State of the example-3 spin box. -/
structure SpinBox3 where
  val : JSVal
  hasRoot : Bool
  inputText : String
  listeners : Nat
  clones : Nat
  inputWrites : Nat
deriving DecidableEq

/-- A freshly constructed example-3 spin box. -/
def SpinBox3.init : SpinBox3 :=
  ⟨JSVal.num (JSNum.int 0), false, "", 0, 0, 0⟩

/-- The render method of the example-3 spin box; super's render is
modelled from the spec (create and clone the root once, skip when a root
already exists). -/
def SpinBox3.render (b : SpinBox3) : SpinBox3 :=
  let firstRender := !b.hasRoot
  let b1 := if b.hasRoot then b else { b with hasRoot := true, clones := b.clones + 1 }
  let b2 := if firstRender then { b1 with listeners := b1.listeners + 3 } else b1
  { b2 with inputText := b2.val.toStr, inputWrites := b2.inputWrites + 1 }

/-- connectedCallback of the example-3 spin box: it just renders. -/
def SpinBox3.connected (b : SpinBox3) : SpinBox3 :=
  b.render

/-- The value setter of the example-3 spin box: store the value and
render, unconditionally. -/
def SpinBox3.setValue (b : SpinBox3) (v : JSVal) : SpinBox3 :=
  SpinBox3.render { b with val := v }

/-!
Lifecycle events, for the template-reuse property: attaching fires
connectedCallback; neither example defines a disconnectedCallback, so
detaching runs no component code.
-/

/-- A lifecycle event of a component instance. -/
inductive LifeEv where
  | attach
  | detach
deriving DecidableEq

/-- Lifecycle step of the example-1 spin box. -/
def SpinBox1.lifeStep (b : SpinBox1) : LifeEv → SpinBox1
  | LifeEv.attach => b.connected
  | LifeEv.detach => b

/-- A sequence of lifecycle events applied to an example-1 spin box. -/
def SpinBox1.runLife (b : SpinBox1) (evs : List LifeEv) : SpinBox1 :=
  evs.foldl SpinBox1.lifeStep b

/-- Lifecycle step of the example-3 spin box. -/
def SpinBox3.lifeStep (b : SpinBox3) : LifeEv → SpinBox3
  | LifeEv.attach => b.connected
  | LifeEv.detach => b

/-- A sequence of lifecycle events applied to an example-3 spin box. -/
def SpinBox3.runLife (b : SpinBox3) (evs : List LifeEv) : SpinBox3 :=
  evs.foldl SpinBox3.lifeStep b

/-!
Example 12: the themed variant (src/12/CustomSpinBox.js).

Its render override calls super's render and then, when the change set
marks value, recolors the host's border and background: the highlight
colors when parseInt of the value is negative, the empty string (the
stylesheet defaults) otherwise.
-/

/-- Host inline styling touched by the themed variant. -/
structure StyleC where
  borderColor : String
  backgroundColor : String
deriving DecidableEq

/-- The highlight styling applied for negative values. -/
def highlightStyle : StyleC :=
  ⟨"rgb(255, 0, 255)", "rgba(255, 0, 255, 0.1)"⟩

/-- The default styling (empty inline styles defer to the stylesheet). -/
def defaultStyle : StyleC :=
  ⟨"", ""⟩

/-- The negativity test of the themed variant: parseInt applied to the
value (after JS string conversion), compared against 0; NaN is not
negative. -/
def negJS (v : JSVal) : Bool :=
  match parseIntJS v.toStr with
  | JSNum.int n => decide (n < 0)
  | JSNum.nan => false

/-- The style part of the themed variant's render override: when the
change set marks value, recolor according to the sign of the value;
otherwise leave the styling untouched. -/
def renderCustom (p : Pass SpinField JSVal) (st : StyleC) : StyleC :=
  if p.changed SpinField.value then
    if negJS (p.snapshot SpinField.value) then highlightStyle else defaultStyle
  else st

/-!
Shared concrete scenario pieces used by the witnesses and
counterexamples.
-/

/-- A render callback that ignores the pass (used where only the state
protocol matters). -/
def rcUnit : Unit → Pass SpinField JSVal → Unit :=
  fun d _ => d

/-- A freshly activated bare reactive instance with value 0. -/
def bare0 : RState SpinField JSVal Unit :=
  activate rcUnit (freshR (fun _ => JSVal.num (JSNum.int 0)) ())

/-- An attached example-4 spin box. -/
def sb4attached : SpinBox4 :=
  attach4 fresh4

lemma setState_of_redundant {delta : F → Option V} {s : RState F V D}
    (h : ∀ f, mergeSnap s.current delta f = s.current f) :
    setState delta s = s := by
  unfold setState; exact if_pos h

lemma setState_of_changed {delta : F → Option V} {s : RState F V D}
    (h : ¬ ∀ f, mergeSnap s.current delta f = s.current f) :
    setState delta s =
      { s with
        current := mergeSnap s.current delta,
        acc := fun f => s.acc f || decide (¬ mergeSnap s.current delta f = s.current f),
        scheduled := true } := by
  unfold setState; exact if_neg h

lemma setState_passes (delta : F → Option V) (s : RState F V D) :
    (setState delta s).passes = s.passes := by
  unfold setState; split <;> rfl

lemma setState_dom (delta : F → Option V) (s : RState F V D) :
    (setState delta s).dom = s.dom := by
  unfold setState; split <;> rfl

lemma setState_firstDone (delta : F → Option V) (s : RState F V D) :
    (setState delta s).firstDone = s.firstDone := by
  unfold setState; split <;> rfl

lemma foldl_setState_current (us : List (F → Option V)) :
    ∀ s : RState F V D,
      (us.foldl (fun t d => setState d t) s).current = finalSnap s.current us := by
  induction us with
  | nil => intro s; rfl
  | cons d rest ih =>
    intro s
    show (rest.foldl (fun t d => setState d t) (setState d s)).current
        = finalSnap (mergeSnap s.current d) rest
    by_cases h : ∀ f, mergeSnap s.current d f = s.current f
    · rw [setState_of_redundant h, ih s, funext h]
    · rw [setState_of_changed h, ih]

lemma foldl_setState_acc (us : List (F → Option V)) :
    ∀ (s : RState F V D) (f : F),
      (us.foldl (fun t d => setState d t) s).acc f
        = (s.acc f || unionChanged s.current us f) := by
  induction us with
  | nil => intro s f; simp [unionChanged]
  | cons d rest ih =>
    intro s f
    show (rest.foldl (fun t d => setState d t) (setState d s)).acc f
        = (s.acc f ||
            (decide (¬ mergeSnap s.current d f = s.current f)
              || unionChanged (mergeSnap s.current d) rest f))
    by_cases h : ∀ f, mergeSnap s.current d f = s.current f
    · rw [setState_of_redundant h, ih s f, funext h]
      simp
    · rw [setState_of_changed h, ih]
      simp only [Bool.or_assoc]

lemma foldl_setState_sched (us : List (F → Option V)) :
    ∀ s : RState F V D,
      ((us.foldl (fun t d => setState d t) s).scheduled = true
        ↔ (s.scheduled = true ∨ ∃ f, unionChanged s.current us f = true)) := by
  induction us with
  | nil => intro s; simp [unionChanged]
  | cons d rest ih =>
    intro s
    show (rest.foldl (fun t d => setState d t) (setState d s)).scheduled = true
        ↔ (s.scheduled = true ∨
            ∃ f, (decide (¬ mergeSnap s.current d f = s.current f)
              || unionChanged (mergeSnap s.current d) rest f) = true)
    by_cases h : ∀ f, mergeSnap s.current d f = s.current f
    · rw [setState_of_redundant h, ih s]
      have hu : ∀ f,
          (decide (¬ mergeSnap s.current d f = s.current f)
            || unionChanged (mergeSnap s.current d) rest f)
          = unionChanged s.current rest f := by
        intro f
        rw [funext h]
        simp
      simp only [hu]
    · rw [setState_of_changed h, ih]
      obtain ⟨g, hg⟩ := not_forall.mp h
      constructor
      · intro _
        right
        exact ⟨g, by simp [hg]⟩
      · intro _
        left
        rfl

lemma foldl_setState_passes (us : List (F → Option V)) :
    ∀ s : RState F V D,
      (us.foldl (fun t d => setState d t) s).passes = s.passes := by
  induction us with
  | nil => intro s; rfl
  | cons d rest ih =>
    intro s
    show (rest.foldl (fun t d => setState d t) (setState d s)).passes = s.passes
    rw [ih, setState_passes]

lemma foldl_setState_dom (us : List (F → Option V)) :
    ∀ s : RState F V D,
      (us.foldl (fun t d => setState d t) s).dom = s.dom := by
  induction us with
  | nil => intro s; rfl
  | cons d rest ih =>
    intro s
    show (rest.foldl (fun t d => setState d t) (setState d s)).dom = s.dom
    rw [ih, setState_dom]

lemma foldl_setState_firstDone (us : List (F → Option V)) :
    ∀ s : RState F V D,
      (us.foldl (fun t d => setState d t) s).firstDone = s.firstDone := by
  induction us with
  | nil => intro s; rfl
  | cons d rest ih =>
    intro s
    show (rest.foldl (fun t d => setState d t) (setState d s)).firstDone = s.firstDone
    rw [ih, setState_firstDone]

lemma foldl_setState_of_noChange (us : List (F → Option V)) :
    ∀ s : RState F V D, (∀ f, unionChanged s.current us f = false) →
      us.foldl (fun t d => setState d t) s = s := by
  induction us with
  | nil => intro s _; rfl
  | cons d rest ih =>
    intro s h
    have h1 : ∀ f, mergeSnap s.current d f = s.current f := by
      intro f
      have := h f
      show _
      rw [unionChanged] at this
      rcases Bool.or_eq_false_iff.mp this with ⟨ha, _⟩
      exact of_not_not (by simpa using ha)
    have h2 : ∀ f, unionChanged s.current rest f = false := by
      intro f
      have := h f
      rw [unionChanged] at this
      rcases Bool.or_eq_false_iff.mp this with ⟨_, hb⟩
      rw [funext h1] at hb
      exact hb
    show rest.foldl (fun t d => setState d t) (setState d s) = s
    rw [setState_of_redundant h1]
    exact ih s h2

lemma digitVal_digitChar {d : Nat} (h : d < 10) : digitVal (digitChar d) = d := by
  interval_cases d <;> decide

lemma isDigitCh_digitChar {d : Nat} (h : d < 10) : isDigitCh (digitChar d) = true := by
  interval_cases d <;> decide

lemma natDigitsAux_all_digits :
    ∀ fuel n, ∀ c ∈ natDigitsAux fuel n, isDigitCh c = true := by
  intro fuel
  induction fuel with
  | zero => intro n c hc; simp [natDigitsAux] at hc
  | succ fuel ih =>
    intro n c hc
    rw [natDigitsAux] at hc
    by_cases hn : n = 0
    · rw [if_pos hn] at hc; simp at hc
    · rw [if_neg hn] at hc
      rcases List.mem_append.mp hc with h1 | h1
      · exact ih (n / 10) c h1
      · rcases List.mem_singleton.mp h1 with rfl
        exact isDigitCh_digitChar (Nat.mod_lt n (by norm_num))

lemma natToChars_all_digits (n : Nat) :
    ∀ c ∈ natToChars n, isDigitCh c = true := by
  intro c hc
  rw [natToChars] at hc
  by_cases hn : n = 0
  · rw [if_pos hn] at hc
    rcases List.mem_singleton.mp hc with rfl
    decide
  · rw [if_neg hn] at hc
    exact natDigitsAux_all_digits (n + 1) n c hc

lemma natToChars_ne_nil (n : Nat) : natToChars n ≠ [] := by
  rw [natToChars]
  by_cases hn : n = 0
  · rw [if_pos hn]; simp
  · rw [if_neg hn, natDigitsAux, if_neg hn]
    simp

lemma isEmpty_eq_false_of_ne_nil {α : Type} {l : List α} (h : l ≠ []) :
    l.isEmpty = false := by
  cases l with
  | nil => exact absurd rfl h
  | cons a l => rfl

lemma natDigitsAux_foldl (fuel : Nat) :
    ∀ n a, n ≤ fuel →
      (natDigitsAux fuel n).foldl (fun a c => a * 10 + digitVal c) a
        = a * 10 ^ (natDigitsAux fuel n).length + n := by
  induction fuel with
  | zero =>
    intro n a h
    have hn : n = 0 := Nat.le_zero.mp h
    subst hn
    simp [natDigitsAux]
  | succ fuel ih =>
    intro n a h
    by_cases hn : n = 0
    · subst hn
      simp [natDigitsAux]
    · rw [natDigitsAux, if_neg hn, List.foldl_append]
      have hlt : n / 10 < n := Nat.div_lt_self (Nat.pos_of_ne_zero hn) (by norm_num)
      have hrec := ih (n / 10) a (by omega)
      rw [hrec]
      show ((a * 10 ^ (natDigitsAux fuel (n / 10)).length + n / 10) * 10
          + digitVal (digitChar (n % 10)))
        = a * 10 ^ (natDigitsAux fuel (n / 10) ++ [digitChar (n % 10)]).length + n
      rw [digitVal_digitChar (Nat.mod_lt n (by norm_num)), List.length_append,
        List.length_singleton, pow_succ, add_mul, mul_assoc, add_assoc]
      have hmod : n / 10 * 10 + n % 10 = n := by omega
      rw [hmod]

lemma charsToNat_natToChars (n : Nat) : charsToNat (natToChars n) = n := by
  rw [natToChars]
  by_cases hn : n = 0
  · rw [if_pos hn, hn]; decide
  · rw [if_neg hn]
    show (natDigitsAux (n + 1) n).foldl (fun a c => a * 10 + digitVal c) 0 = n
    rw [natDigitsAux_foldl (n + 1) n 0 (by omega)]
    simp

lemma takeWhile_of_all {p : Char → Bool} :
    ∀ cs : List Char, (∀ c ∈ cs, p c = true) → cs.takeWhile p = cs := by
  intro cs
  induction cs with
  | nil => intro _; rfl
  | cons a l ih =>
    intro h
    rw [List.takeWhile_cons, if_pos (h a (List.mem_cons_self a l))]
    rw [ih (fun c hc => h c (List.mem_cons_of_mem a hc))]

lemma digit_not_space {c : Char} (h : isDigitCh c = true) : isSpaceCh c = false := by
  rcases Bool.eq_false_or_eq_true (isSpaceCh c) with hs | hs
  swap
  · exact hs
  · exfalso
    rw [isSpaceCh] at hs
    rcases Bool.or_eq_true_iff.mp hs with h1 | h1
    · rcases Bool.or_eq_true_iff.mp h1 with h2 | h2
      · rcases Bool.or_eq_true_iff.mp h2 with h3 | h3
        · rw [of_decide_eq_true h3] at h; exact absurd h (by decide)
        · rw [of_decide_eq_true h3] at h; exact absurd h (by decide)
      · rw [of_decide_eq_true h2] at h; exact absurd h (by decide)
    · rw [of_decide_eq_true h1] at h; exact absurd h (by decide)

lemma digit_ne_minus {c : Char} (h : isDigitCh c = true) : ¬ c = '-' := by
  intro he
  rw [he] at h
  exact absurd h (by decide)

lemma digit_ne_plus {c : Char} (h : isDigitCh c = true) : ¬ c = '+' := by
  intro he
  rw [he] at h
  exact absurd h (by decide)

lemma dropWhile_space_of_digits {cs : List Char}
    (h : ∀ c ∈ cs, isDigitCh c = true) : cs.dropWhile isSpaceCh = cs := by
  cases cs with
  | nil => rfl
  | cons a l =>
    rw [List.dropWhile_cons,
      if_neg (by rw [digit_not_space (h a (List.mem_cons_self a l))]; simp)]

lemma parseDigits_natToChars (m : Nat) :
    parseDigits (natToChars m) = JSNum.int m := by
  rw [parseDigits]
  simp only [takeWhile_of_all (natToChars m) (natToChars_all_digits m),
    isEmpty_eq_false_of_ne_nil (natToChars_ne_nil m)]
  rw [if_neg (by simp), charsToNat_natToChars]

lemma parseIntJS_jsIntToString (n : Int) :
    parseIntJS (jsIntToString n) = JSNum.int n := by
  rw [parseIntJS, jsIntToString]
  by_cases hn : n < 0
  · rw [if_pos hn]
    show parseIntChars ('-' :: natToChars n.natAbs) = JSNum.int n
    rw [parseIntChars, List.dropWhile_cons, if_neg (by decide)]
    rw [parseIntTrimmed]
    rw [if_pos rfl, parseDigits_natToChars]
    show JSNum.int (-(n.natAbs : Int)) = JSNum.int n
    congr 1
    omega
  · rw [if_neg hn]
    obtain ⟨c, cs, hcs⟩ := List.exists_cons_of_ne_nil (natToChars_ne_nil n.natAbs)
    have hall := natToChars_all_digits n.natAbs
    rw [hcs] at hall
    have hd : isDigitCh c = true := hall c (List.mem_cons_self c cs)
    show parseIntChars (String.mk (natToChars n.natAbs)).data = JSNum.int n
    rw [parseIntChars]
    show parseIntTrimmed ((natToChars n.natAbs).dropWhile isSpaceCh) = JSNum.int n
    rw [dropWhile_space_of_digits (natToChars_all_digits n.natAbs), hcs,
      parseIntTrimmed, if_neg (digit_ne_minus hd), if_neg (digit_ne_plus hd), ← hcs,
      parseDigits_natToChars]
    congr 1
    omega

lemma negJS_int (n : Int) :
    negJS (JSVal.num (JSNum.int n)) = decide (n < 0) := by
  rw [negJS]
  show (match parseIntJS (jsIntToString n) with
    | JSNum.int n => decide (n < 0)
    | JSNum.nan => false) = decide (n < 0)
  rw [parseIntJS_jsIntToString]

lemma endTurn_current (rc : D → Pass F V → D) (s : RState F V D) :
    (endTurn rc s).current = s.current := by
  rw [endTurn]; split <;> rfl

lemma endTurn_flagInv (rc : D → Pass F V → D) {s : RState F V D}
    (h : flagInv s) : flagInv (endTurn rc s) := by
  obtain ⟨h1, L, p, hL, hp, hq⟩ := h
  rw [endTurn]
  by_cases hs : s.scheduled = true
  · rw [if_pos hs]
    refine ⟨rfl, ⟨s.current, s.acc, !s.firstDone⟩ :: L, p, ?_, hp, ?_⟩
    · show ⟨s.current, s.acc, !s.firstDone⟩ :: s.passes = _
      rw [hL]
      rfl
    · intro q hq2
      rcases List.mem_cons.mp hq2 with rfl | hmem
      · show (!s.firstDone) = false
        rw [h1]
        rfl
      · exact hq q hmem
  · rw [if_neg hs]
    exact ⟨h1, L, p, hL, hp, hq⟩

lemma processTurn_flagInv (rc : D → Pass F V → D) (us : List (F → Option V))
    {s : RState F V D} (h : flagInv s) : flagInv (processTurn rc us s) := by
  obtain ⟨h1, L, p, hL, hp, hq⟩ := h
  rw [processTurn]
  apply endTurn_flagInv
  refine ⟨?_, L, p, ?_, hp, hq⟩
  · rw [foldl_setState_firstDone]
    exact h1
  · rw [foldl_setState_passes]
    exact hL

lemma runTurns_flagInv (rc : D → Pass F V → D) :
    ∀ (ts : List (List (F → Option V))) (s : RState F V D),
      flagInv s → flagInv (runTurns rc s ts) := by
  intro ts
  induction ts with
  | nil => intro s h; exact h
  | cons us rest ih =>
    intro s h
    exact ih _ (processTurn_flagInv rc us h)

lemma activate_fresh_flagInv (rc : D → Pass F V → D) (dflt : F → V) (d0 : D) :
    flagInv (activate rc (freshR dflt d0)) := by
  refine ⟨rfl, [], ⟨dflt, fun _ => true, true⟩, rfl, rfl, ?_⟩
  intro q hq
  simp at hq

lemma setValueProp_value (v : JSVal) (s : SpinBox4) :
    getValue4 (setValueProp v s) = v := by
  rw [getValue4, setValueProp, processTurn, List.foldl_cons, List.foldl_nil,
    endTurn_current]
  by_cases h : ∀ f, mergeSnap s.current (fun _ => some v) f = s.current f
  · rw [setState_of_redundant h]
    exact (h SpinField.value).symm
  · rw [setState_of_changed h]
    rfl

lemma connected1_inv (b : SpinBox1)
    (h : (b.root = none ∧ b.listeners = 0 ∧ b.clones = 0) ∨
      (b.root.isSome = true ∧ b.listeners = 3 ∧ b.clones = 1)) :
    b.connected.root.isSome = true ∧ b.connected.listeners = 3 ∧
      b.connected.clones = 1 := by
  rcases h with ⟨h1, h2, h3⟩ | ⟨h1, h2, h3⟩
  · simp [SpinBox1.connected, h1, h2, h3]
  · obtain ⟨r, hr⟩ := Option.isSome_iff_exists.mp h1
    simp [SpinBox1.connected, hr, h2, h3]

lemma runLife1_wired :
    ∀ (evs : List LifeEv) (b : SpinBox1),
      (b.root.isSome = true ∧ b.listeners = 3 ∧ b.clones = 1) →
      ((b.runLife evs).root.isSome = true ∧ (b.runLife evs).listeners = 3 ∧
        (b.runLife evs).clones = 1) := by
  intro evs
  induction evs with
  | nil => intro b h; exact h
  | cons e rest ih =>
    intro b h
    show ((SpinBox1.lifeStep b e).runLife rest).root.isSome = true ∧ _
    cases e with
    | attach => exact ih _ (connected1_inv b (Or.inr h))
    | detach => exact ih _ h

lemma runLife1_attach :
    ∀ (evs : List LifeEv) (b : SpinBox1),
      ((b.root = none ∧ b.listeners = 0 ∧ b.clones = 0) ∨
        (b.root.isSome = true ∧ b.listeners = 3 ∧ b.clones = 1)) →
      LifeEv.attach ∈ evs →
      ((b.runLife evs).root.isSome = true ∧ (b.runLife evs).listeners = 3 ∧
        (b.runLife evs).clones = 1) := by
  intro evs
  induction evs with
  | nil => intro b _ hmem; simp at hmem
  | cons e rest ih =>
    intro b h hmem
    cases e with
    | attach => exact runLife1_wired rest _ (connected1_inv b h)
    | detach =>
      have hm : LifeEv.attach ∈ rest := by
        rcases List.mem_cons.mp hmem with he | hm
        · exact absurd he (by decide)
        · exact hm
      exact ih b h hm

lemma connected3_inv (b : SpinBox3)
    (h : (b.hasRoot = false ∧ b.listeners = 0 ∧ b.clones = 0) ∨
      (b.hasRoot = true ∧ b.listeners = 3 ∧ b.clones = 1)) :
    b.connected.hasRoot = true ∧ b.connected.listeners = 3 ∧
      b.connected.clones = 1 := by
  rcases h with ⟨h1, h2, h3⟩ | ⟨h1, h2, h3⟩
  · simp [SpinBox3.connected, SpinBox3.render, h1, h2, h3]
  · simp [SpinBox3.connected, SpinBox3.render, h1, h2, h3]

lemma runLife3_wired :
    ∀ (evs : List LifeEv) (b : SpinBox3),
      (b.hasRoot = true ∧ b.listeners = 3 ∧ b.clones = 1) →
      ((b.runLife evs).hasRoot = true ∧ (b.runLife evs).listeners = 3 ∧
        (b.runLife evs).clones = 1) := by
  intro evs
  induction evs with
  | nil => intro b h; exact h
  | cons e rest ih =>
    intro b h
    show ((SpinBox3.lifeStep b e).runLife rest).hasRoot = true ∧ _
    cases e with
    | attach => exact ih _ (connected3_inv b (Or.inr h))
    | detach => exact ih _ h

lemma runLife3_attach :
    ∀ (evs : List LifeEv) (b : SpinBox3),
      ((b.hasRoot = false ∧ b.listeners = 0 ∧ b.clones = 0) ∨
        (b.hasRoot = true ∧ b.listeners = 3 ∧ b.clones = 1)) →
      LifeEv.attach ∈ evs →
      ((b.runLife evs).hasRoot = true ∧ (b.runLife evs).listeners = 3 ∧
        (b.runLife evs).clones = 1) := by
  intro evs
  induction evs with
  | nil => intro b _ hmem; simp at hmem
  | cons e rest ih =>
    intro b h hmem
    cases e with
    | attach => exact runLife3_wired rest _ (connected3_inv b h)
    | detach =>
      have hm : LifeEv.attach ∈ rest := by
        rcases List.mem_cons.mp hmem with he | hm
        · exact absurd he (by decide)
        · exact hm
      exact ih b h hm

lemma connected1_has_root (b : SpinBox1) : ∃ r, b.connected.root = some r := by
  cases hb : b.root with
  | none =>
    refine ⟨b.val.toStr, ?_⟩
    simp [SpinBox1.connected, hb]
  | some r =>
    refine ⟨b.val.toStr, ?_⟩
    simp [SpinBox1.connected, hb]

/-- C1, as frozen, is refuted on the spec-modelled reactive core: a
synchronous turn issuing N = 1 state update whose merge is redundant
(setting value to its current value 0) triggers zero render passes, not
exactly one — the pass count of a freshly activated instance stays at 1
instead of growing to 2. -/
theorem claim_C1_counterexample :
    (processTurn rcUnit [fun _ => some (JSVal.num (JSNum.int 0))] bare0).passes.length
        = bare0.passes.length ∧
      bare0.passes.length = 1 ∧
      ¬ (processTurn rcUnit [fun _ => some (JSVal.num (JSNum.int 0))] bare0).passes.length
          = bare0.passes.length + 1 := by
  decide

/-- C1 (amended): issuing N state updates within one synchronous turn
triggers at most one render pass: exactly one when at least one update
changes a field — and that pass observes the final merged snapshot with a
change set equal to the union of all fields changed across the N updates
since the last completed render — and none when every update is
redundant, in which case the instance is left unchanged. -/
theorem claim_C1_coalescing (rc : D → Pass F V → D) (s : RState F V D)
    (us : List (F → Option V)) (hs : s.scheduled = false)
    (ha : ∀ f, s.acc f = false) :
    ((∃ f, unionChanged s.current us f = true) →
      (processTurn rc us s).passes
        = ⟨finalSnap s.current us, fun f => unionChanged s.current us f,
            !s.firstDone⟩ :: s.passes) ∧
    ((∀ f, unionChanged s.current us f = false) → processTurn rc us s = s) := by
  constructor
  · rintro ⟨g, hg⟩
    rw [processTurn, endTurn]
    have hsch : (us.foldl (fun t d => setState d t) s).scheduled = true :=
      (foldl_setState_sched us s).mpr (Or.inr ⟨g, hg⟩)
    rw [if_pos hsch]
    have hacc : (us.foldl (fun t d => setState d t) s).acc
        = fun f => unionChanged s.current us f := by
      funext f
      rw [foldl_setState_acc us s f, ha f, Bool.false_or]
    show (⟨(us.foldl (fun t d => setState d t) s).current,
      (us.foldl (fun t d => setState d t) s).acc,
      !(us.foldl (fun t d => setState d t) s).firstDone⟩ : Pass F V)
        :: (us.foldl (fun t d => setState d t) s).passes = _
    rw [foldl_setState_current us s, hacc, foldl_setState_firstDone us s,
      foldl_setState_passes us s]
  · intro h
    rw [processTurn, foldl_setState_of_noChange us s h, endTurn,
      if_neg (by rw [hs]; simp)]

/-- Witness for C1 (amended) at a concrete instance: a freshly activated
value-0 instance receiving a turn of two effective updates (value 1 then
value 2) completes exactly one additional pass with the final snapshot
and the accumulated change set. -/
theorem claim_C1_coalescing_witness :
    bare0.scheduled = false ∧
      (processTurn rcUnit
          [fun _ => some (JSVal.num (JSNum.int 1)), fun _ => some (JSVal.num (JSNum.int 2))]
          bare0).passes
        = ⟨finalSnap bare0.current
              [fun _ => some (JSVal.num (JSNum.int 1)), fun _ => some (JSVal.num (JSNum.int 2))],
            fun f => unionChanged bare0.current
              [fun _ => some (JSVal.num (JSNum.int 1)), fun _ => some (JSVal.num (JSNum.int 2))] f,
            !bare0.firstDone⟩ :: bare0.passes :=
  ⟨by decide,
    (claim_C1_coalescing rcUnit bare0
      [fun _ => some (JSVal.num (JSNum.int 1)), fun _ => some (JSVal.num (JSNum.int 2))]
      (by decide) (by decide)).1 (by decide)⟩

/-- C2: on the spec-modelled reactive core, an update whose merge over the
current snapshot is field-wise equal to it leaves the instance completely
unchanged (in particular no render pass is scheduled and the render-pass
log is unchanged); otherwise the current snapshot becomes the merged
snapshot and the render-scheduled flag is set; an update by itself never
completes a render pass. -/
theorem claim_C2_merge_semantics (s : RState F V D) (delta : F → Option V) :
    ((∀ f, mergeSnap s.current delta f = s.current f) → setState delta s = s) ∧
    ((¬ ∀ f, mergeSnap s.current delta f = s.current f) →
      (setState delta s).current = mergeSnap s.current delta ∧
        (setState delta s).scheduled = true) ∧
    (setState delta s).passes = s.passes := by
  refine ⟨fun h => setState_of_redundant h, fun h => ?_, setState_passes delta s⟩
  rw [setState_of_changed h]
  exact ⟨rfl, rfl⟩

/-- Witness for C2 at a concrete instance: updating a value-0 instance
with value 0 is a complete no-op, while updating it with value 1 sets the
scheduled flag. -/
theorem claim_C2_merge_semantics_witness :
    setState (fun _ => some (JSVal.num (JSNum.int 0))) bare0 = bare0 ∧
      (setState (fun _ => some (JSVal.num (JSNum.int 1))) bare0).scheduled = true :=
  ⟨(claim_C2_merge_semantics bare0 (fun _ => some (JSVal.num (JSNum.int 0)))).1 (by decide),
    ((claim_C2_merge_semantics bare0 (fun _ => some (JSVal.num (JSNum.int 1)))).2.1
      (by decide)).2⟩

/-- C3: for every freshly attached instance and every subsequent sequence
of synchronous turns, the pass log splits as later passes on top of one
earliest pass: the earliest (first) pass observed the first-render flag
true, and every later pass observed it false. -/
theorem claim_C3_first_render_flag (rc : D → Pass F V → D) (dflt : F → V)
    (d0 : D) (turns : List (List (F → Option V))) :
    ∃ L p, (runTurns rc (activate rc (freshR dflt d0)) turns).passes = L ++ [p]
      ∧ p.first = true ∧ ∀ q ∈ L, q.first = false :=
  (runTurns_flagInv rc turns _ (activate_fresh_flagInv rc dflt d0)).2

/-- Witness for C3 at a concrete instance: a freshly attached value-0
instance followed by one effective update turn. -/
theorem claim_C3_first_render_flag_witness :
    ∃ L p, (runTurns rcUnit
        (activate rcUnit (freshR (fun _ => JSVal.num (JSNum.int 0)) ()))
        [[fun _ => some (JSVal.num (JSNum.int 1))]]).passes = L ++ [p]
      ∧ p.first = true ∧ ∀ q ∈ L, q.first = false :=
  claim_C3_first_render_flag rcUnit (fun _ => JSVal.num (JSNum.int 0)) ()
    [[fun _ => some (JSVal.num (JSNum.int 1))]]

/-- C4, as frozen, is refuted on the example-4 code: the input-field edit
path stores the raw field text with no coercion, so after the user edits
the field to "abc" the public value property holds the string "abc",
which is neither an integer nor NaN. -/
theorem claim_C4_counterexample :
    getValue4 (inputEvent4 ("abc") sb4attached) = JSVal.str ("abc") ∧
      isIntOrNaN (getValue4 (inputEvent4 ("abc") sb4attached)) = false := by
  decide

/-- C4 (amended): reading the public value property returns the current
snapshot's value field; the property-set path stores the written value
as-is and the attribute-change path stores the parseInt coercion of the
attribute text (so those two paths store an integer or NaN and apply no
further domain validation), but the input-field edit path stores the raw
field text as a string, with no coercion at all. -/
theorem claim_C4_value_paths (s : SpinBox4) (txt : String) (v : JSVal) :
    getValue4 s = s.current SpinField.value ∧
    getValue4 (setValueProp v s) = v ∧
    getValue4 (attrChanged4 ("value") txt s) = JSVal.num (parseIntJS txt) ∧
    getValue4 (inputEvent4 txt s) = JSVal.str txt := by
  refine ⟨rfl, setValueProp_value v s, ?_, ?_⟩
  · rw [attrChanged4, if_pos rfl]
    exact setValueProp_value _ _
  · rw [inputEvent4]
    exact setValueProp_value _ _

/-- Witness for C4 (amended) at a concrete instance: the attached
example-4 spin box, attribute text "7", property write of 9. -/
theorem claim_C4_value_paths_witness :
    getValue4 sb4attached = sb4attached.current SpinField.value ∧
    getValue4 (setValueProp (JSVal.num (JSNum.int 9)) sb4attached)
        = JSVal.num (JSNum.int 9) ∧
    getValue4 (attrChanged4 ("value") ("7") sb4attached)
        = JSVal.num (parseIntJS ("7")) ∧
    getValue4 (inputEvent4 ("7") sb4attached) = JSVal.str ("7") :=
  claim_C4_value_paths sb4attached ("7") (JSVal.num (JSNum.int 9))

/-- C5: on the attached example-4 spin box, setting the value attribute to
"5" makes the property read 5 and the field show "5"; setting it then to
"abc" makes the property read NaN and the field show the literal text
"NaN"; from NaN, both the decrement and the increment button leave the
value NaN. -/
theorem claim_C5_attribute_propagation :
    getValue4 (attrChanged4 ("value") ("5") sb4attached) = JSVal.num (JSNum.int 5) ∧
    (attrChanged4 ("value") ("5") sb4attached).dom.inputText = "5" ∧
    getValue4 (attrChanged4 ("value") ("abc")
        (attrChanged4 ("value") ("5") sb4attached)) = JSVal.num JSNum.nan ∧
    (attrChanged4 ("value") ("abc")
        (attrChanged4 ("value") ("5") sb4attached)).dom.inputText = "NaN" ∧
    getValue4 (pressDown4 (attrChanged4 ("value") ("abc")
        (attrChanged4 ("value") ("5") sb4attached))) = JSVal.num JSNum.nan ∧
    getValue4 (pressUp4 (attrChanged4 ("value") ("abc")
        (attrChanged4 ("value") ("5") sb4attached))) = JSVal.num JSNum.nan := by
  decide

/-- C6: starting from a freshly attached spin box at value 0, one
decrement-button activation yields value -1 with field text "-1", and one
increment-button activation yields value 1 with field text "1"; this
holds in the example-4 (reactive) and example-1 (hand-rolled) variants. -/
theorem claim_C6_single_step :
    getValue4 (pressDown4 sb4attached) = JSVal.num (JSNum.int (-1)) ∧
    (pressDown4 sb4attached).dom.inputText = "-1" ∧
    getValue4 (pressUp4 sb4attached) = JSVal.num (JSNum.int 1) ∧
    (pressUp4 sb4attached).dom.inputText = "1" ∧
    SpinBox1.init.connected.pressDown.1.val = JSVal.num (JSNum.int (-1)) ∧
    SpinBox1.init.connected.pressDown.1.root = some ("-1") ∧
    SpinBox1.init.connected.pressUp.1.val = JSVal.num (JSNum.int 1) ∧
    SpinBox1.init.connected.pressUp.1.root = some ("1") := by
  decide

/-- C7: for every sequence of attach/detach lifecycle events containing at
least one attach, a fresh instance ends with exactly one template clone
and exactly three attached listeners (one-time wiring runs once, on first
activation only), in both the example-1 and example-3 variants. -/
theorem claim_C7_template_reuse (evs : List LifeEv) (h : LifeEv.attach ∈ evs) :
    ((SpinBox1.init.runLife evs).clones = 1 ∧
      (SpinBox1.init.runLife evs).listeners = 3) ∧
    ((SpinBox3.init.runLife evs).clones = 1 ∧
      (SpinBox3.init.runLife evs).listeners = 3) := by
  have h1 := runLife1_attach evs SpinBox1.init (Or.inl ⟨rfl, rfl, rfl⟩) h
  have h3 := runLife3_attach evs SpinBox3.init (Or.inl ⟨rfl, rfl, rfl⟩) h
  exact ⟨⟨h1.2.2, h1.2.1⟩, ⟨h3.2.2, h3.2.1⟩⟩

/-- Witness for C7 at a concrete event sequence: attach, detach, then
attach again. -/
theorem claim_C7_template_reuse_witness :
    LifeEv.attach ∈ [LifeEv.attach, LifeEv.detach, LifeEv.attach] ∧
      ((SpinBox1.init.runLife [LifeEv.attach, LifeEv.detach, LifeEv.attach]).clones = 1 ∧
        (SpinBox1.init.runLife [LifeEv.attach, LifeEv.detach, LifeEv.attach]).listeners = 3) ∧
      ((SpinBox3.init.runLife [LifeEv.attach, LifeEv.detach, LifeEv.attach]).clones = 1 ∧
        (SpinBox3.init.runLife [LifeEv.attach, LifeEv.detach, LifeEv.attach]).listeners = 3) :=
  ⟨by decide,
    claim_C7_template_reuse [LifeEv.attach, LifeEv.detach, LifeEv.attach] (by decide)⟩

/-- C8: on every render pass of the themed variant whose change set marks
value, the host styling becomes the highlight colors exactly when the
value is negative (an integer below zero; NaN is not negative) and the
defaults otherwise — so a pass changing the value from negative to
non-negative reverts the styling on that same pass — and a pass whose
change set does not mark value leaves the styling untouched. -/
theorem claim_C8_themed_styling (p : Pass SpinField JSVal) (st : StyleC) (n : Int) :
    (p.changed SpinField.value = true →
      renderCustom p st
        = if negJS (p.snapshot SpinField.value) then highlightStyle else defaultStyle) ∧
    (p.changed SpinField.value = false → renderCustom p st = st) ∧
    negJS (JSVal.num (JSNum.int n)) = decide (n < 0) ∧
    negJS (JSVal.num JSNum.nan) = false ∧
    renderCustom ⟨fun _ => JSVal.num (JSNum.int (-3)), fun _ => true, false⟩ defaultStyle
      = highlightStyle ∧
    renderCustom ⟨fun _ => JSVal.num (JSNum.int 3), fun _ => true, false⟩ highlightStyle
      = defaultStyle := by
  refine ⟨fun h => ?_, fun h => ?_, negJS_int n, by decide, by decide, by decide⟩
  · rw [renderCustom, if_pos h]
  · rw [renderCustom, if_neg (by rw [h]; simp)]

/-- Witness for C8 at a concrete pass: change set marking value, snapshot
value -5, starting from the default styling. -/
theorem claim_C8_themed_styling_witness :
    (Pass.changed ⟨fun _ => JSVal.num (JSNum.int (-5)), fun _ => true, false⟩
        SpinField.value = true) ∧
      renderCustom ⟨fun _ => JSVal.num (JSNum.int (-5)), fun _ => true, false⟩ defaultStyle
        = if negJS ((⟨fun _ => JSVal.num (JSNum.int (-5)), fun _ => true, false⟩ :
            Pass SpinField JSVal).snapshot SpinField.value)
          then highlightStyle else defaultStyle :=
  ⟨by decide,
    (claim_C8_themed_styling
      ⟨fun _ => JSVal.num (JSNum.int (-5)), fun _ => true, false⟩ defaultStyle 0).1 rfl⟩

/-- C9: in the hand-rolled variant, writing the value property (directly
or through a value attribute change) on an instance that has never been
connected dereferences the null shadow root and throws; a freshly
constructed instance indeed has no shadow root; and after connectedCallback
has run, the same write succeeds without throwing. -/
theorem claim_C9_null_root_throw (b : SpinBox1) (v : JSVal) (txt : String)
    (h : b.root = none) :
    (b.setValue v).2 = true ∧
    (b.attrChanged ("value") txt).2 = true ∧
    SpinBox1.init.root = none ∧
    (b.connected.setValue v).2 = false := by
  obtain ⟨r, hr⟩ := connected1_has_root b
  refine ⟨?_, ?_, rfl, ?_⟩
  · simp [SpinBox1.setValue, h]
  · rw [SpinBox1.attrChanged, if_pos rfl]
    simp [SpinBox1.setValue, h]
  · simp [SpinBox1.setValue, hr]

/-- Witness for C9 at a concrete instance: the freshly constructed
example-1 spin box, written with 5 (as the attribute text "5" would). -/
theorem claim_C9_null_root_throw_witness :
    SpinBox1.init.root = none ∧
      (SpinBox1.init.setValue (JSVal.num (JSNum.int 5))).2 = true ∧
      (SpinBox1.init.connected.setValue (JSVal.num (JSNum.int 5))).2 = false :=
  ⟨by decide,
    (claim_C9_null_root_throw SpinBox1.init (JSVal.num (JSNum.int 5)) ("5") rfl).1,
    (claim_C9_null_root_throw SpinBox1.init (JSVal.num (JSNum.int 5)) ("5") rfl).2.2.2⟩

/-- C10: in the hand-rolled variant (once connected) and in the
template-mixin variant, every write to the value property re-runs the
render logic and rewrites the input field — the write counter grows by
one even when the written value equals the current value — while in the
reactive variant a write of the value already held by an idle instance
changes nothing at all. -/
theorem claim_C10_unconditional_render (b1 : SpinBox1) (r : String) (v w : JSVal)
    (b3 : SpinBox3) (s4 : SpinBox4) (h1 : b1.root = some r)
    (h4 : s4.scheduled = false) :
    (b1.setValue v).1.inputWrites = b1.inputWrites + 1 ∧
    (b3.setValue w).inputWrites = b3.inputWrites + 1 ∧
    setValueProp (getValue4 s4) s4 = s4 := by
  refine ⟨by simp [SpinBox1.setValue, h1], ?_, ?_⟩
  · by_cases hr : b3.hasRoot
    · simp [SpinBox3.setValue, SpinBox3.render, hr]
    · simp [SpinBox3.setValue, SpinBox3.render, hr]
  · have h : ∀ f, mergeSnap s4.current (fun _ => some (getValue4 s4)) f
        = s4.current f := by
      intro f
      cases f
      rfl
    rw [setValueProp, processTurn, List.foldl_cons, List.foldl_nil,
      setState_of_redundant h, endTurn, if_neg (by rw [h4]; simp)]

/-- Witness for C10 at concrete instances: connected example-1 and
example-3 spin boxes rewritten with their current value 0, and the
attached reactive spin box rewritten with its current value. -/
theorem claim_C10_unconditional_render_witness :
    SpinBox1.init.connected.root = some ("0") ∧
      sb4attached.scheduled = false ∧
      (SpinBox1.init.connected.setValue (JSVal.num (JSNum.int 0))).1.inputWrites
        = SpinBox1.init.connected.inputWrites + 1 ∧
      (SpinBox3.init.connected.setValue (JSVal.num (JSNum.int 0))).inputWrites
        = SpinBox3.init.connected.inputWrites + 1 ∧
      setValueProp (getValue4 sb4attached) sb4attached = sb4attached :=
  ⟨by decide, by decide,
    (claim_C10_unconditional_render SpinBox1.init.connected ("0")
      (JSVal.num (JSNum.int 0)) (JSVal.num (JSNum.int 0)) SpinBox3.init.connected
      sb4attached (by decide) (by decide)).1,
    (claim_C10_unconditional_render SpinBox1.init.connected ("0")
      (JSVal.num (JSNum.int 0)) (JSVal.num (JSNum.int 0)) SpinBox3.init.connected
      sb4attached (by decide) (by decide)).2.1,
    (claim_C10_unconditional_render SpinBox1.init.connected ("0")
      (JSVal.num (JSNum.int 0)) (JSVal.num (JSNum.int 0)) SpinBox3.init.connected
      sb4attached (by decide) (by decide)).2.2⟩

example : parseIntJS ("5") = JSNum.int 5 := by decide
example : parseIntJS ("abc") = JSNum.nan := by decide
example : parseIntJS (" -12ab") = JSNum.int (-12) := by decide
example : parseIntJS ("NaN") = JSNum.nan := by decide
example : (JSNum.int (-1)).toStr = "-1" := by decide
example : (JSNum.int 10).toStr = "10" := by decide
example : JSNum.nan.toStr = "NaN" := by decide
example : (JSVal.str ("7")).toNumber = JSNum.int 7 := by decide
example : (JSVal.str ("abc")).toNumber = JSNum.nan := by decide

end SpinSpec
